import Mathlib

/-!
Verification of the `getSignedUrl` Supabase Edge Function
(`src/supabase/functions/getSignedUrl/index.ts`) of the GreenPipsTrading
repository.

The handler is embedded shallowly as a pure function from a request, a
configuration and a record of external collaborators (identity provider,
metadata store, object store) to a response together with a trace of the
downstream calls it performed.  Each downstream call records which client
handle performed it (the caller-scoped `anon` client `supabase` or the
privileged `admin` client `supabaseAdmin`), mirroring the two
`createClient` handles of the source.

External collaborator behaviour is abstracted as oracles: the
`supabase-js` calls return `{ data, error }` pairs, modelled as a
returned outcome, and any exception escaping a call is modelled as a
`thrown` outcome caught by the handler's surrounding `try/catch`.
-/

namespace GetSignedUrl

/-- JavaScript numeric value as produced by `Number(...)`, restricted to the
integer fragment actually exercised by the configuration surface (the
`SIGNED_URL_EXPIRES` variable).  Non-numeric strings map to `nan`. -/
inductive JsNum where
  | nan : JsNum
  | int (n : Int) : JsNum
deriving DecidableEq

/-- JSON value appearing in the handler's response bodies: strings and
numbers are the only value kinds the source ever emits. -/
inductive Jv where
  | str (s : String) : Jv
  | num (n : JsNum) : Jv
deriving DecidableEq

/-- HTTP response: status, optional JSON object body (field list in
emission order), and header list in emission order.  `body = none`
models the `null` body of the OPTIONS pre-flight response. -/
structure Response where
  status : Nat
  body : Option (List (String × Jv))
  headers : List (String × String)
deriving DecidableEq

/-- Embeds `jsonResponse` (index.ts lines 121-129): JSON-serialised body with
a `content-type: application/json` and a permissive CORS header. -/
def jsonResponse (body : List (String × Jv)) (status : Nat) : Response :=
  { status := status
    body := some body
    headers := [("content-type", "application/json"),
                ("access-control-allow-origin", "*")] }

/-- Embeds the OPTIONS pre-flight branch (index.ts lines 36-45): a 204
response with a `null` body and the three CORS headers, built directly with
`new Response`, not via `jsonResponse`. -/
def optionsResponse : Response :=
  { status := 204
    body := none
    headers := [("access-control-allow-origin", "*"),
                ("access-control-allow-methods", "POST, OPTIONS"),
                ("access-control-allow-headers", "Authorization, Content-Type")] }

/-- Resolved configuration (index.ts lines 18-22), read once from the
environment at module load. -/
structure Config where
  supabaseUrl : String
  supabaseAnonKey : String
  supabaseServiceRoleKey : String
  bucketName : String
  signedUrlExpires : JsNum
deriving DecidableEq

/-- Digit-string to natural number; `none` when a non-digit occurs. -/
def parseNatDigits (l : List Char) : Option Nat :=
  l.foldl
    (fun acc c =>
      match acc with
      | none => none
      | some n => if c.isDigit then some (n * 10 + (c.toNat - 48)) else none)
    (some 0)

/-- ASCII whitespace characters matched by the regex class `\s`
(the Unicode members of `\s` are outside the modelled domain). -/
def isJsWs (c : Char) : Bool :=
  c = ' ' || c = '\t' || c = '\n' || c = '\r' || c = '\x0b' || c = '\x0c'

/-- Strips leading and trailing whitespace from a character list, as
`Number(...)` does to its string argument before conversion. -/
def jsTrim (l : List Char) : List Char :=
  ((l.dropWhile isJsWs).reverse.dropWhile isJsWs).reverse

/-- Models JavaScript `Number(s)` on the fragment of inputs the
configuration surface can produce: leading/trailing whitespace is trimmed,
the empty string is `0`, an optionally signed decimal-digit string is its
value, and anything else (including float/hex literals, outside the
modelled domain) is `nan`. -/
def jsNumber (s : String) : JsNum :=
  match jsTrim s.toList with
  | [] => .int 0
  | '-' :: rest =>
      (match (if rest.isEmpty then none else parseNatDigits rest) with
       | some n => .int (-(n : Int))
       | none => .nan)
  | '+' :: rest =>
      (match (if rest.isEmpty then none else parseNatDigits rest) with
       | some n => .int (n : Int)
       | none => .nan)
  | cs =>
      (match parseNatDigits cs with
       | some n => .int (n : Int)
       | none => .nan)

/-- Embeds the environment reads of index.ts lines 18-22:
`Deno.env.get(name) ?? default` for each configuration value, with
`Number(...)` applied to the TTL. -/
def resolveConfig (env : String → Option String) : Config :=
  { supabaseUrl := (env "SUPABASE_URL").getD ""
    supabaseAnonKey := (env "SUPABASE_ANON_KEY").getD ""
    supabaseServiceRoleKey := (env "SUPABASE_SERVICE_ROLE_KEY").getD ""
    bucketName := (env "BUCKET_NAME").getD "uploads"
    signedUrlExpires := jsNumber ((env "SIGNED_URL_EXPIRES").getD "60") }

/-- JSON field value for `body?.filePath` after `req.json()` succeeded:
absent (no such field, or the body is not an object), a string, or a
non-string value carrying its JavaScript truthiness. -/
inductive JsField where
  | absent : JsField
  | strVal (s : String) : JsField
  | nonString (truthy : Bool) : JsField
deriving DecidableEq

/-- Parsed JSON request body, projected to the one field the handler reads. -/
structure ReqBody where
  filePath : JsField
deriving DecidableEq

/-- Inbound request as the handler observes it: the method string, the
result of `req.headers.get("authorization")`, and the result of
`await req.json()` (`.error` when parsing threw). -/
structure Req where
  method : String
  authorization : Option String
  body : Except String ReqBody

/-- Embeds the filePath check of index.ts lines 59-62:
`if (!filePath || typeof filePath !== "string")` rejects.  A string passes
exactly when it is non-empty (the empty string is falsy); every non-string
or absent value is rejected.  Returns the accepted string. -/
def validFilePath : JsField → Option String
  | .strVal s => if s = "" then none else some s
  | _ => none

/-- Line terminators excluded by the regex metacharacter `.` (the
Unicode ones are outside the modelled domain). -/
def isLineTerm (c : Char) : Bool := c = '\n' || c = '\r'

/-- Backtracking search for the `\s+(.+)$` tail of the Bearer regex:
`n` counts down the number of whitespace characters consumed by `\s+`
(greedy, so the largest split is tried first); the captured group is the
remainder, which must be non-empty and free of line terminators because
`.` cannot match them and `$` anchors at end of input. -/
def bearerSplit : Nat → List Char → Option (List Char)
  | 0, _ => none
  | n + 1, l =>
      let t := l.drop (n + 1)
      if !t.isEmpty && t.all (fun c => !isLineTerm c) then some t
      else bearerSplit n l

/-- Embeds `authHeader.match(/^Bearer\s+(.+)$/i)` (index.ts line 66),
returning the captured token when the header matches. -/
def bearerCapture (s : String) : Option String :=
  let cs := s.toList
  if (cs.take 6).map Char.toLower = "bearer".toList then
    let rest := cs.drop 6
    match bearerSplit ((rest.takeWhile isJsWs).length) rest with
    | some t => some (String.mk t)
    | none => none
  else none

/-- One row of the `files` table as selected by the ownership lookup
(`select("id, path, owner_id")`). -/
structure FileRow where
  id : String
  path : String
  owner_id : String
deriving DecidableEq

/-- Outcome of `supabase.auth.getUser(token)`: either the awaited call threw
(captured by the handler's try/catch) or it returned `{ data, error }`,
with `error` carrying the provider's message when truthy and `userId` the
`data.user.id` when a user is present. -/
inductive GetUserOutcome where
  | thrown (detail : String) : GetUserOutcome
  | ret (error : Option String) (userId : Option String) : GetUserOutcome
deriving DecidableEq

/-- Outcome of the `files` lookup (`.maybeSingle()`): thrown, or returned
`{ data, error }` with at most one row. -/
inductive QueryOutcome where
  | thrown (detail : String) : QueryOutcome
  | ret (error : Option String) (row : Option FileRow) : QueryOutcome
deriving DecidableEq

/-- Outcome of `storage.from(bucket).createSignedUrl(path, expires)`:
thrown, or returned `{ data, error }` with `signedUrl` the
`data.signedUrl` when data is present. -/
inductive SignOutcome where
  | thrown (detail : String) : SignOutcome
  | ret (error : Option String) (signedUrl : Option String) : SignOutcome
deriving DecidableEq

/-- External collaborators as oracles: the identity provider keyed by
token, the metadata store keyed by (path, ownerId), and the object store
keyed by (bucket, path, expiresIn). -/
structure Collab where
  getUser : String → GetUserOutcome
  filesQuery : String → String → QueryOutcome
  createSignedUrl : String → String → JsNum → SignOutcome

/-- Which of the two client handles performed a downstream call:
`anon` is the caller-scoped `supabase` handle, `admin` the privileged
`supabaseAdmin` (service-role) handle. -/
inductive ClientKind where
  | anon : ClientKind
  | admin : ClientKind
deriving DecidableEq

/-- A downstream call as recorded in the handler's trace, with the client
handle that performed it and the arguments passed. -/
inductive Call where
  | authGetUser (client : ClientKind) (token : String) : Call
  | dbSelectFiles (client : ClientKind) (path : String) (owner : String) : Call
  | storageCreateSignedUrl (client : ClientKind) (bucket : String)
      (path : String) (expiresIn : JsNum) : Call
deriving DecidableEq

/-- Embeds the `serve` handler body (index.ts lines 34-118).  Returns the
response together with the ordered trace of downstream calls performed.
The branch structure follows the source line by line: OPTIONS pre-flight,
method check, JSON body parse, filePath check, Bearer header match, token
validation, ownership lookup, signed-URL minting; thrown outcomes land in
the surrounding `try/catch` which answers 500. -/
def serveHandler (cfg : Config) (co : Collab) (req : Req) :
    Response × List Call :=
  if req.method = "OPTIONS" then
    (optionsResponse, [])
  else if req.method ≠ "POST" then
    (jsonResponse [("error", .str "Method Not Allowed")] 405, [])
  else
    match req.body with
    | .error _ => (jsonResponse [("error", .str "Invalid JSON body")] 400, [])
    | .ok body =>
      match validFilePath body.filePath with
      | none =>
          (jsonResponse
            [("error", .str "filePath is required and must be a string")] 400, [])
      | some filePath =>
        match bearerCapture (req.authorization.getD "") with
        | none =>
            (jsonResponse [("error", .str "Missing Authorization header")] 401, [])
        | some token =>
          match co.getUser token with
          | .thrown _ =>
              (jsonResponse [("error", .str "Internal server error")] 500,
               [.authGetUser .anon token])
          | .ret userErr userIdOpt =>
            if userErr.isSome || userIdOpt.isNone then
              (jsonResponse [("error", .str "Invalid or expired token")] 401,
               [.authGetUser .anon token])
            else
              let userId := userIdOpt.getD ""
              match co.filesQuery filePath userId with
              | .thrown _ =>
                  (jsonResponse [("error", .str "Internal server error")] 500,
                   [.authGetUser .anon token,
                    .dbSelectFiles .anon filePath userId])
              | .ret fileErr rowOpt =>
                if fileErr.isSome then
                  (jsonResponse [("error", .str "Internal server error")] 500,
                   [.authGetUser .anon token,
                    .dbSelectFiles .anon filePath userId])
                else if rowOpt.isNone then
                  (jsonResponse [("error", .str "Forbidden")] 403,
                   [.authGetUser .anon token,
                    .dbSelectFiles .anon filePath userId])
                else
                  match co.createSignedUrl cfg.bucketName filePath
                      cfg.signedUrlExpires with
                  | .thrown _ =>
                      (jsonResponse [("error", .str "Internal server error")] 500,
                       [.authGetUser .anon token,
                        .dbSelectFiles .anon filePath userId,
                        .storageCreateSignedUrl .admin cfg.bucketName filePath
                          cfg.signedUrlExpires])
                  | .ret signErr urlOpt =>
                    if signErr.isSome || urlOpt.isNone then
                      (jsonResponse
                        [("error", .str "Failed to create signed URL")] 500,
                       [.authGetUser .anon token,
                        .dbSelectFiles .anon filePath userId,
                        .storageCreateSignedUrl .admin cfg.bucketName filePath
                          cfg.signedUrlExpires])
                    else
                      (jsonResponse
                        [("signedUrl", .str (urlOpt.getD "")),
                         ("expiresIn", .num cfg.signedUrlExpires)] 200,
                       [.authGetUser .anon token,
                        .dbSelectFiles .anon filePath userId,
                        .storageCreateSignedUrl .admin cfg.bucketName filePath
                          cfg.signedUrlExpires])

/-- The bearer token the request carries, when the Authorization header
matches the Bearer pattern (what line 70 binds as `token`). -/
def requestToken (req : Req) : Option String :=
  bearerCapture (req.authorization.getD "")

/-- The validated `filePath` of the request, when the body parsed and the
field passed the string check of lines 59-62. -/
def requestFilePath (req : Req) : Option String :=
  match req.body with
  | .error _ => none
  | .ok b => validFilePath b.filePath

/-- The principal id the identity provider resolves for the request's
token: present exactly when `getUser` returned no error and a user. -/
def principalOf (co : Collab) (req : Req) : Option String :=
  match requestToken req with
  | none => none
  | some t =>
    match co.getUser t with
    | .thrown _ => none
    | .ret e u => if e.isSome then none else u

/-- The client handle a recorded call used. -/
def clientOf : Call → ClientKind
  | .authGetUser k _ => k
  | .dbSelectFiles k _ _ => k
  | .storageCreateSignedUrl k _ _ _ => k

/-- Whether a recorded call is the signed-URL minting call. -/
def isMint : Call → Bool
  | .storageCreateSignedUrl _ _ _ _ => true
  | _ => false

/-- Whether a recorded call used the privileged (service-role) handle. -/
def usesAdmin (c : Call) : Bool := clientOf c == ClientKind.admin

/-- Well-formedness of an ownership lookup call for a given request: it
must use the caller-scoped anon handle and filter by exactly the request's
validated filePath and the provider-resolved principal id.  Non-lookup
calls satisfy it vacuously. -/
def lookupOk (co : Collab) (req : Req) : Call → Bool
  | .dbSelectFiles k p o =>
      k == ClientKind.anon
        && requestFilePath req == some p
        && principalOf co req == some o
  | _ => true

/-- Whether an ownership-lookup outcome is a failure of the lookup itself
(thrown, or `{ error }` truthy), as opposed to a clean zero-row answer. -/
def isLookupFailure : QueryOutcome → Bool
  | .thrown _ => true
  | .ret e _ => e.isSome

/-- Whether a minting outcome fails the `if (signErr || !signedData)`
check of line 108 (or threw). -/
def isMintFailure : SignOutcome → Bool
  | .thrown _ => true
  | .ret e u => e.isSome || u.isNone

/-- Concrete configuration fixture used by witnesses. -/
def cfgEx : Config :=
  { supabaseUrl := "https://proj.supabase.co"
    supabaseAnonKey := "anon-key"
    supabaseServiceRoleKey := "service-key"
    bucketName := "uploads"
    signedUrlExpires := .int 60 }

/-- Concrete collaborator fixture: token `tok123` resolves to principal
`U1`, who owns exactly the record at path `U1/pic.jpg`; minting succeeds. -/
def coEx : Collab :=
  { getUser := fun t =>
      if t = "tok123" then .ret none (some "U1") else .ret (some "bad jwt") none
    filesQuery := fun p o =>
      if p = "U1/pic.jpg" && o = "U1" then
        .ret none (some { id := "f1", path := "U1/pic.jpg", owner_id := "U1" })
      else .ret none none
    createSignedUrl := fun _ p _ => .ret none (some ("https://signed/" ++ p)) }

/-- Concrete happy-path request fixture. -/
def reqEx : Req :=
  { method := "POST"
    authorization := some "Bearer tok123"
    body := .ok { filePath := .strVal "U1/pic.jpg" } }

/-- Request for a path the fixture principal does not own. -/
def reqOtherPath : Req :=
  { method := "POST"
    authorization := some "Bearer tok123"
    body := .ok { filePath := .strVal "U2/other.jpg" } }

/-- Request presenting a token the fixture provider rejects. -/
def reqBadToken : Req :=
  { method := "POST"
    authorization := some "Bearer badtok"
    body := .ok { filePath := .strVal "U1/pic.jpg" } }

/-- Request whose body carries the empty string as `filePath`. -/
def reqEmptyPath : Req :=
  { method := "POST"
    authorization := some "Bearer tok123"
    body := .ok { filePath := .strVal "" } }

/-- POST request with an unparseable body and no Authorization header. -/
def reqNoAuthBadBody : Req :=
  { method := "POST"
    authorization := none
    body := .error "Unexpected end of JSON input" }

/-- Browser pre-flight request fixture. -/
def reqOptions : Req :=
  { method := "OPTIONS"
    authorization := none
    body := .error "" }

/-- Collaborator fixture whose identity provider throws (unreachable). -/
def coThrow : Collab :=
  { getUser := fun _ => .thrown "fetch failed: ECONNREFUSED"
    filesQuery := fun _ _ => .ret none none
    createSignedUrl := fun _ _ _ => .ret none none }

/-- Collaborator fixture whose metadata store errors on the lookup. -/
def coDbErr : Collab :=
  { getUser := fun t =>
      if t = "tok123" then .ret none (some "U1") else .ret (some "bad jwt") none
    filesQuery := fun _ _ => .ret (some "connection reset by peer") none
    createSignedUrl := fun _ _ _ => .ret none (some "unused") }

/-!
## Claim theorems
-/

/-- C1: for a POST request with parseable body, string filePath, well-formed
Bearer header, a token the provider validates to a principal, an ownership
lookup returning exactly one record, and a successful mint, the handler
answers 200 with `signedUrl` and `expiresIn` equal to the configured TTL;
the privileged minting capability is invoked exactly once, with exactly the
request's filePath and the configured TTL verbatim (the same TTL value is
echoed in the response, never extended or renewed). -/
theorem c1_success_mints_once
    (cfg : Config) (co : Collab) (req : Req) (body : ReqBody)
    (fp t uid url : String) (row : FileRow)
    (hm : req.method = "POST")
    (hb : req.body = .ok body)
    (hfp : validFilePath body.filePath = some fp)
    (ht : bearerCapture (req.authorization.getD "") = some t)
    (hu : co.getUser t = .ret none (some uid))
    (hq : co.filesQuery fp uid = .ret none (some row))
    (hs : co.createSignedUrl cfg.bucketName fp cfg.signedUrlExpires =
      .ret none (some url)) :
    (serveHandler cfg co req).1.status = 200 ∧
    (serveHandler cfg co req).1.body =
      some [("signedUrl", .str url), ("expiresIn", .num cfg.signedUrlExpires)] ∧
    ((serveHandler cfg co req).2.filter isMint) =
      [.storageCreateSignedUrl .admin cfg.bucketName fp cfg.signedUrlExpires] := by
  simp [serveHandler, hm, hb, hfp, ht, hu, hq, hs, jsonResponse, isMint]

/-- Witness for C1 at the happy-path fixtures. -/
theorem c1_success_mints_once_witness :
    (serveHandler cfgEx coEx reqEx).1.status = 200 ∧
    (serveHandler cfgEx coEx reqEx).1.body =
      some [("signedUrl", .str "https://signed/U1/pic.jpg"),
            ("expiresIn", .num (.int 60))] ∧
    ((serveHandler cfgEx coEx reqEx).2.filter isMint) =
      [.storageCreateSignedUrl .admin "uploads" "U1/pic.jpg" (.int 60)] :=
  c1_success_mints_once cfgEx coEx reqEx { filePath := .strVal "U1/pic.jpg" }
    "U1/pic.jpg" "tok123" "U1" "https://signed/U1/pic.jpg"
    { id := "f1", path := "U1/pic.jpg", owner_id := "U1" }
    rfl rfl (by decide) (by decide) (by decide) (by decide) (by decide)

/-- C3: with a valid token, a lookup that succeeds with zero matching
records yields 403 Forbidden and the minting step is never reached.  The
collaborator record `co` is universally quantified, so the result holds
regardless of any record the store may hold for the same path under a
different owner: the handler only ever consults the lookup at the pair
(filePath, principal id). -/
theorem c3_zero_rows_forbidden
    (cfg : Config) (co : Collab) (req : Req) (body : ReqBody)
    (fp t uid : String)
    (hm : req.method = "POST")
    (hb : req.body = .ok body)
    (hfp : validFilePath body.filePath = some fp)
    (ht : bearerCapture (req.authorization.getD "") = some t)
    (hu : co.getUser t = .ret none (some uid))
    (hq : co.filesQuery fp uid = .ret none none) :
    (serveHandler cfg co req).1.status = 403 ∧
    (serveHandler cfg co req).1.body = some [("error", .str "Forbidden")] ∧
    ((serveHandler cfg co req).2.filter isMint) = [] := by
  simp [serveHandler, hm, hb, hfp, ht, hu, hq, jsonResponse, isMint]

/-- Witness for C3: the fixture owner requests a path it does not own. -/
theorem c3_zero_rows_forbidden_witness :
    (serveHandler cfgEx coEx reqOtherPath).1.status = 403 ∧
    (serveHandler cfgEx coEx reqOtherPath).1.body =
      some [("error", .str "Forbidden")] ∧
    ((serveHandler cfgEx coEx reqOtherPath).2.filter isMint) = [] :=
  c3_zero_rows_forbidden cfgEx coEx reqOtherPath
    { filePath := .strVal "U2/other.jpg" } "U2/other.jpg" "tok123" "U1"
    rfl rfl (by decide) (by decide) (by decide) (by decide)

/-- C4: shape-valid request, but the provider reports the token invalid
(an error, or no user in the returned data): 401, and the trace contains
only the token-validation call — neither the ownership lookup nor the
minting step is invoked. -/
theorem c4_invalid_token_unauthorized
    (cfg : Config) (co : Collab) (req : Req) (body : ReqBody)
    (fp t : String) (e uOpt : Option String)
    (hm : req.method = "POST")
    (hb : req.body = .ok body)
    (hfp : validFilePath body.filePath = some fp)
    (ht : bearerCapture (req.authorization.getD "") = some t)
    (hu : co.getUser t = .ret e uOpt)
    (hrej : e.isSome = true ∨ uOpt = none) :
    (serveHandler cfg co req).1.status = 401 ∧
    (serveHandler cfg co req).1.body =
      some [("error", .str "Invalid or expired token")] ∧
    (serveHandler cfg co req).2 = [.authGetUser .anon t] := by
  rcases hrej with h | h
  · simp [serveHandler, hm, hb, hfp, ht, hu, h, jsonResponse]
  · subst h
    simp [serveHandler, hm, hb, hfp, ht, hu, jsonResponse]

/-- Witness for C4: the fixture provider rejects token `badtok`. -/
theorem c4_invalid_token_unauthorized_witness :
    (serveHandler cfgEx coEx reqBadToken).1.status = 401 ∧
    (serveHandler cfgEx coEx reqBadToken).1.body =
      some [("error", .str "Invalid or expired token")] ∧
    (serveHandler cfgEx coEx reqBadToken).2 = [.authGetUser .anon "badtok"] :=
  c4_invalid_token_unauthorized cfgEx coEx reqBadToken
    { filePath := .strVal "U1/pic.jpg" } "U1/pic.jpg" "badtok"
    (some "bad jwt") none
    rfl rfl (by decide) (by decide) (by decide) (Or.inl rfl)

/-- C5: shape-valid request, but the provider call throws (unreachable or
unexpected failure, as distinct from returning a token rejection): the
handler's try/catch answers 500 with the fixed literal body
`Internal server error`.  The body is the same for every provider detail
`d`, so no provider error detail can reach the caller. -/
theorem c5_provider_failure_internal_error
    (cfg : Config) (co : Collab) (req : Req) (body : ReqBody)
    (fp t d : String)
    (hm : req.method = "POST")
    (hb : req.body = .ok body)
    (hfp : validFilePath body.filePath = some fp)
    (ht : bearerCapture (req.authorization.getD "") = some t)
    (hu : co.getUser t = .thrown d) :
    (serveHandler cfg co req).1.status = 500 ∧
    (serveHandler cfg co req).1.body =
      some [("error", .str "Internal server error")] ∧
    (serveHandler cfg co req).2 = [.authGetUser .anon t] := by
  simp [serveHandler, hm, hb, hfp, ht, hu, jsonResponse]

/-- Witness for C5: a provider that throws a connection error. -/
theorem c5_provider_failure_internal_error_witness :
    (serveHandler cfgEx coThrow reqEx).1.status = 500 ∧
    (serveHandler cfgEx coThrow reqEx).1.body =
      some [("error", .str "Internal server error")] ∧
    (serveHandler cfgEx coThrow reqEx).2 = [.authGetUser .anon "tok123"] :=
  c5_provider_failure_internal_error cfgEx coThrow reqEx
    { filePath := .strVal "U1/pic.jpg" } "U1/pic.jpg" "tok123"
    "fetch failed: ECONNREFUSED"
    rfl rfl (by decide) (by decide) (by decide)

/-- C10: a POST request whose parsed body carries `filePath = ""` is
rejected 400 with the `filePath is required and must be a string` error and
no downstream call is made: the `!filePath` check rejects every falsy
value, including the empty string, although it is a string value. -/
theorem c10_empty_filepath_rejected
    (cfg : Config) (co : Collab) (req : Req) (body : ReqBody)
    (hm : req.method = "POST")
    (hb : req.body = .ok body)
    (hfp : body.filePath = .strVal "") :
    (serveHandler cfg co req).1.status = 400 ∧
    (serveHandler cfg co req).1.body =
      some [("error", .str "filePath is required and must be a string")] ∧
    (serveHandler cfg co req).2 = [] := by
  simp [serveHandler, hm, hb, hfp, validFilePath, jsonResponse]

/-- Witness for C10: a request with the empty string as filePath. -/
theorem c10_empty_filepath_rejected_witness :
    (serveHandler cfgEx coEx reqEmptyPath).1.status = 400 ∧
    (serveHandler cfgEx coEx reqEmptyPath).1.body =
      some [("error", .str "filePath is required and must be a string")] ∧
    (serveHandler cfgEx coEx reqEmptyPath).2 = [] :=
  c10_empty_filepath_rejected cfgEx coEx reqEmptyPath
    { filePath := .strVal "" } rfl rfl rfl

/-- C6 counterexample: a POST request with a missing Authorization header
whose body is unparseable is answered 400 (`Invalid JSON body`), not 401,
because the handler checks the body and the filePath before it ever looks
at the Authorization header.  This refutes the claim's universal "for
every POST request with a missing or malformed Authorization header, the
response is 401". -/
theorem c6_counterexample :
    reqNoAuthBadBody.method = "POST" ∧
    reqNoAuthBadBody.authorization = none ∧
    (serveHandler cfgEx coEx reqNoAuthBadBody).1.status = 400 ∧
    ¬ (serveHandler cfgEx coEx reqNoAuthBadBody).1.status = 401 := by
  refine ⟨rfl, rfl, by decide, by decide⟩

/-- C6 (amended): for a POST request that passes the body and filePath
checks, a missing or malformed Authorization header (one not matching the
case-insensitive `Bearer <token>` pattern) is answered 401 with no
downstream call. -/
theorem c6_missing_auth_unauthorized
    (cfg : Config) (co : Collab) (req : Req) (body : ReqBody) (fp : String)
    (hm : req.method = "POST")
    (hb : req.body = .ok body)
    (hfp : validFilePath body.filePath = some fp)
    (ht : bearerCapture (req.authorization.getD "") = none) :
    (serveHandler cfg co req).1.status = 401 ∧
    (serveHandler cfg co req).1.body =
      some [("error", .str "Missing Authorization header")] ∧
    (serveHandler cfg co req).2 = [] := by
  simp [serveHandler, hm, hb, hfp, ht, jsonResponse]

/-- Witness for the amended C6: well-formed body, no Authorization header. -/
theorem c6_missing_auth_unauthorized_witness :
    (serveHandler cfgEx coEx
      { method := "POST", authorization := none
        body := .ok { filePath := .strVal "U1/pic.jpg" } }).1.status = 401 ∧
    (serveHandler cfgEx coEx
      { method := "POST", authorization := none
        body := .ok { filePath := .strVal "U1/pic.jpg" } }).1.body =
      some [("error", .str "Missing Authorization header")] ∧
    (serveHandler cfgEx coEx
      { method := "POST", authorization := none
        body := .ok { filePath := .strVal "U1/pic.jpg" } }).2 = [] :=
  c6_missing_auth_unauthorized cfgEx coEx
    { method := "POST", authorization := none
      body := .ok { filePath := .strVal "U1/pic.jpg" } }
    { filePath := .strVal "U1/pic.jpg" } "U1/pic.jpg"
    rfl rfl (by decide) (by decide)

/-- C7: with a valid token, if the ownership lookup itself fails (thrown
or store error), or the lookup returns a row and the minting then fails,
the handler answers 500 with one of the two fixed, detail-free literals,
and the trace holds no minting call other than (at most) the single
privileged one — no lower-privilege fallback minting path exists. -/
theorem c7_downstream_failure_internal_error
    (cfg : Config) (co : Collab) (req : Req) (body : ReqBody)
    (fp t uid : String)
    (hm : req.method = "POST")
    (hb : req.body = .ok body)
    (hfp : validFilePath body.filePath = some fp)
    (ht : bearerCapture (req.authorization.getD "") = some t)
    (hu : co.getUser t = .ret none (some uid))
    (hfail : isLookupFailure (co.filesQuery fp uid) = true ∨
      (∃ row, co.filesQuery fp uid = .ret none (some row) ∧
        isMintFailure
          (co.createSignedUrl cfg.bucketName fp cfg.signedUrlExpires) = true)) :
    (serveHandler cfg co req).1.status = 500 ∧
    ((serveHandler cfg co req).1.body =
        some [("error", .str "Internal server error")] ∨
      (serveHandler cfg co req).1.body =
        some [("error", .str "Failed to create signed URL")]) ∧
    (((serveHandler cfg co req).2.filter isMint) = [] ∨
      ((serveHandler cfg co req).2.filter isMint) =
        [.storageCreateSignedUrl .admin cfg.bucketName fp
          cfg.signedUrlExpires]) := by
  rcases hfail with h | ⟨row, hq, hmf⟩
  · rcases hq : co.filesQuery fp uid with d | ⟨e, r⟩
    · simp [serveHandler, hm, hb, hfp, ht, hu, hq, jsonResponse, isMint]
    · rw [hq] at h
      simp only [isLookupFailure] at h
      simp [serveHandler, hm, hb, hfp, ht, hu, hq, h, jsonResponse, isMint]
  · rcases hs : co.createSignedUrl cfg.bucketName fp cfg.signedUrlExpires
      with d | ⟨e, u⟩
    · simp [serveHandler, hm, hb, hfp, ht, hu, hq, hs, jsonResponse, isMint]
    · rw [hs] at hmf
      simp only [isMintFailure] at hmf
      simp [serveHandler, hm, hb, hfp, ht, hu, hq, hs, hmf, jsonResponse, isMint]

/-- Witness for C7, on the lookup-failure side: the store errors. -/
theorem c7_downstream_failure_internal_error_witness :
    (serveHandler cfgEx coDbErr reqEx).1.status = 500 ∧
    ((serveHandler cfgEx coDbErr reqEx).1.body =
        some [("error", .str "Internal server error")] ∨
      (serveHandler cfgEx coDbErr reqEx).1.body =
        some [("error", .str "Failed to create signed URL")]) ∧
    (((serveHandler cfgEx coDbErr reqEx).2.filter isMint) = [] ∨
      ((serveHandler cfgEx coDbErr reqEx).2.filter isMint) =
        [.storageCreateSignedUrl .admin "uploads" "U1/pic.jpg" (.int 60)]) :=
  c7_downstream_failure_internal_error cfgEx coDbErr reqEx
    { filePath := .strVal "U1/pic.jpg" } "U1/pic.jpg" "tok123" "U1"
    rfl rfl (by decide) (by decide) (by decide) (Or.inl (by decide))

/-- Every handler response is either the OPTIONS pre-flight response or a
`jsonResponse`; helper shared by the header claims. -/
theorem serveHandler_response_shape (cfg : Config) (co : Collab) (req : Req) :
    ((serveHandler cfg co req).1 = optionsResponse ∧ req.method = "OPTIONS") ∨
    ∃ b s, (serveHandler cfg co req).1 = jsonResponse b s := by
  simp only [serveHandler]
  repeat' split
  all_goals first
    | exact Or.inl ⟨rfl, by assumption⟩
    | exact Or.inr ⟨_, _, rfl⟩

/-- C8 counterexample: the OPTIONS pre-flight response carries no
`content-type: application/json` header (it is built directly with
`new Response`, not via `jsonResponse`), refuting the claim's "every
response ... carries a content-type: application/json header". -/
theorem c8_counterexample :
    ¬ (("content-type", "application/json") ∈
      (serveHandler cfgEx coEx reqOptions).1.headers) := by
  decide

/-- C8 (amended): every response carries the permissive
`access-control-allow-origin: *` header, and every response to a
non-OPTIONS request also carries `content-type: application/json`. -/
theorem c8_headers
    (cfg : Config) (co : Collab) (req : Req) :
    ("access-control-allow-origin", "*") ∈
      (serveHandler cfg co req).1.headers ∧
    (req.method ≠ "OPTIONS" →
      ("content-type", "application/json") ∈
        (serveHandler cfg co req).1.headers) := by
  rcases serveHandler_response_shape cfg co req with ⟨h, hm⟩ | ⟨b, s, h⟩
  · exact ⟨by simp [h, optionsResponse], fun hne => absurd hm hne⟩
  · exact ⟨by simp [h, jsonResponse], fun _ => by simp [h, jsonResponse]⟩

/-- Witness for the amended C8 at a non-OPTIONS request. -/
theorem c8_headers_witness :
    ("access-control-allow-origin", "*") ∈
      (serveHandler cfgEx coEx reqEx).1.headers ∧
    ("content-type", "application/json") ∈
      (serveHandler cfgEx coEx reqEx).1.headers :=
  ⟨(c8_headers cfgEx coEx reqEx).1,
   (c8_headers cfgEx coEx reqEx).2 (by decide)⟩

/-- C9 counterexample: with an entirely empty environment (in particular
`BUCKET_NAME` unset), a successful request mints against the built-in
default bucket `uploads` — a default other than the TTL substituted into
the request logic, refuting the claim. -/
theorem c9_counterexample :
    (fun _ => (none : Option String)) "BUCKET_NAME" = none ∧
    ((serveHandler (resolveConfig (fun _ => none)) coEx reqEx).2.filter isMint) =
      [.storageCreateSignedUrl .admin "uploads" "U1/pic.jpg" (.int 60)] := by
  exact ⟨rfl, by decide⟩

/-- C9 (amended): the TTL defaults to 60 seconds and the bucket name
defaults to `uploads` when their environment values are absent; the
endpoint and key values fall back to the empty string (guarded only by a
startup warning log, not a meaningful default). -/
theorem c9_config_defaults (env : String → Option String) :
    (env "SIGNED_URL_EXPIRES" = none →
      (resolveConfig env).signedUrlExpires = .int 60) ∧
    (env "BUCKET_NAME" = none → (resolveConfig env).bucketName = "uploads") ∧
    (env "SUPABASE_URL" = none → (resolveConfig env).supabaseUrl = "") ∧
    (env "SUPABASE_ANON_KEY" = none →
      (resolveConfig env).supabaseAnonKey = "") ∧
    (env "SUPABASE_SERVICE_ROLE_KEY" = none →
      (resolveConfig env).supabaseServiceRoleKey = "") := by
  refine ⟨fun h => ?_, fun h => ?_, fun h => ?_, fun h => ?_, fun h => ?_⟩
  · simp only [resolveConfig, h, Option.getD]
    decide
  · simp [resolveConfig, h]
  · simp [resolveConfig, h]
  · simp [resolveConfig, h]
  · simp [resolveConfig, h]

/-- Witness for the amended C9 at the empty environment. -/
theorem c9_config_defaults_witness :
    (resolveConfig (fun _ => none)).signedUrlExpires = .int 60 ∧
    (resolveConfig (fun _ => none)).bucketName = "uploads" ∧
    (resolveConfig (fun _ => none)).supabaseUrl = "" ∧
    (resolveConfig (fun _ => none)).supabaseAnonKey = "" ∧
    (resolveConfig (fun _ => none)).supabaseServiceRoleKey = "" :=
  ⟨(c9_config_defaults (fun _ => none)).1 rfl,
   (c9_config_defaults (fun _ => none)).2.1 rfl,
   (c9_config_defaults (fun _ => none)).2.2.1 rfl,
   (c9_config_defaults (fun _ => none)).2.2.2.1 rfl,
   (c9_config_defaults (fun _ => none)).2.2.2.2 rfl⟩

/-- A non-`none` option equals `some` of its default-extracted value. -/
theorem opt_ne_none_eq_some_getD (o : Option String) (h : ¬ o = none) :
    o = some (o.getD "") := by
  cases o
  · exact absurd rfl h
  · rfl

/-- C2: on every request, for every downstream call in the trace, the
privileged (service-role) handle is used only for the signed-URL minting
call, and every ownership lookup uses the caller-scoped anon handle and
filters by exactly the request's validated filePath and the principal id
the provider resolved for the request's token. -/
theorem c2_client_separation (cfg : Config) (co : Collab) (req : Req) :
    ((serveHandler cfg co req).2.all
      (fun c => (!usesAdmin c || isMint c) && lookupOk co req c)) = true := by
  obtain ⟨m, auth, bd⟩ := req
  simp only [serveHandler]
  repeat' split
  all_goals
    simp_all [usesAdmin, clientOf, isMint, lookupOk, requestFilePath,
      requestToken, principalOf, validFilePath]
  all_goals
    exact opt_ne_none_eq_some_getD _ (by tauto)

end GetSignedUrl
